import Mathlib

/-!
Verification development for the Elasticsearch exporter
(`elasticsearch_exporter.go`).

The file embeds the metric catalogs, the label-keyed metric registry with
its reset/upsert operations, and the collection cycle `Exporter.Collect`,
with the two upstream HTTP fetches made explicit as `FetchResult` inputs.
`float64` metric values are modelled as rationals: every value the code
stores arises from an exact integer-to-float conversion (or the literals
0, 1, 2), so no floating-point rounding behaviour is involved.
-/

/-- Go integer division (`/` on `int64`) truncates toward zero. -/
def goDiv (a b : Int) : Int := Int.tdiv a b

/-- Modelled from the spec: the node-stats JSON struct definitions
(`NodeStatsResponse` and its components) live in a repository file that is
not under `src/`; fields follow spec sections 3 and 6. Millisecond, byte
and count fields are integers: the upstream API reports them as JSON
integers and the exporter code wraps every access in an explicit
`float64(...)` conversion. Per-collector GC statistics: cumulative run
count and cumulative collection time in milliseconds. -/
structure GCCollectorStats where
  collectionCount : Int
  collectionTime : Int

/-- Modelled from the spec: circuit-breaker statistics by breaker name. -/
structure BreakerStats where
  estimatedSize : Int
  limitSize : Int

/-- Modelled from the spec: per-pool thread-pool statistics. -/
structure ThreadPoolStats where
  completed : Int
  rejected : Int
  active : Int
  threads : Int
  largest : Int
  queue : Int

/-- Modelled from the spec: JVM memory statistics by area. -/
structure JVMMemStats where
  heapCommitted : Int
  heapUsed : Int
  heapMax : Int
  nonHeapCommitted : Int
  nonHeapUsed : Int

/-- Modelled from the spec: JVM section of a node-stats document. -/
structure JVMStats where
  gcCollectors : List (String × GCCollectorStats)
  mem : JVMMemStats

/-- Modelled from the spec: a cache section (fielddata, filter cache,
query cache, request cache). -/
structure CacheStats where
  memorySize : Int
  evictions : Int

/-- Modelled from the spec: document counts. -/
structure DocsStats where
  count : Int
  deleted : Int

/-- Modelled from the spec: segment statistics. -/
structure SegmentsStats where
  memory : Int
  count : Int

/-- Modelled from the spec: store statistics. -/
structure StoreStats where
  size : Int
  throttleTime : Int

/-- Modelled from the spec: flush statistics. -/
structure FlushStats where
  total : Int
  time : Int

/-- Modelled from the spec: indexing statistics. -/
structure IndexingStats where
  indexTime : Int
  indexTotal : Int

/-- Modelled from the spec: merge statistics. -/
structure MergesStats where
  totalTime : Int
  totalSize : Int
  total : Int

/-- Modelled from the spec: refresh statistics. -/
structure RefreshStats where
  totalTime : Int
  total : Int

/-- Modelled from the spec: the indices section of a node-stats document.
The request-cache section is present in the document model although the
collection code never reads it. -/
structure IndicesStats where
  fieldData : CacheStats
  filterCache : CacheStats
  queryCache : CacheStats
  requestCache : CacheStats
  docs : DocsStats
  segments : SegmentsStats
  store : StoreStats
  flush : FlushStats
  indexing : IndexingStats
  merges : MergesStats
  refresh : RefreshStats

/-- Modelled from the spec: transport-layer statistics. -/
structure TransportStats where
  rxCount : Int
  rxSize : Int
  txCount : Int
  txSize : Int

/-- Modelled from the spec: process CPU statistics (times in ms). -/
structure CPUStats where
  percent : Int
  total : Int
  sys : Int
  user : Int

/-- Modelled from the spec: process memory statistics. -/
structure ProcessMemStats where
  resident : Int
  share : Int
  totalVirtual : Int

/-- Modelled from the spec: process section of a node-stats document. -/
structure ProcessStats where
  cpu : CPUStats
  memory : ProcessMemStats
  openFD : Int

/-- Modelled from the spec: one node's statistics snapshot. Go maps
(collectors, breakers, thread pools) are modelled as association lists. -/
structure NodeStats where
  host : String
  jvm : JVMStats
  breakers : List (String × BreakerStats)
  threadPool : List (String × ThreadPoolStats)
  indices : IndicesStats
  transport : TransportStats
  process : ProcessStats

/-- Modelled from the spec: the decoded node-stats document:
`cluster_name` plus the node-id-to-stats mapping. -/
structure NodeStatsResponse where
  clusterName : String
  nodes : List (String × NodeStats)

/-- Modelled from the spec: the decoded cluster-health document. -/
structure ClusterHealthResponse where
  clusterName : String
  status : String
  timedOut : Bool
  numberOfNodes : Int
  numberOfDataNodes : Int

/-! ### Metric catalogs (the four static tables of the source) -/

/-- Names of the scalar gauge metrics (`gaugeMetrics` table). -/
def gaugeMetricNames : List String :=
  ["cluster_health_status",
   "cluster_health_timed_out",
   "cluster_number_of_nodes_total",
   "cluster_number_of_data_nodes_total",
   "indices_fielddata_memory_size_bytes",
   "indices_filter_cache_memory_size_bytes",
   "indices_query_cache_memory_size_bytes",
   "indices_request_cache_memory_size_bytes",
   "indices_docs",
   "indices_docs_deleted",
   "indices_store_size_bytes",
   "indices_segments_memory_bytes",
   "indices_segments_count",
   "process_cpu_percent",
   "process_mem_resident_size_bytes",
   "process_mem_share_size_bytes",
   "process_mem_virtual_size_bytes",
   "process_open_files_count",
   "process_max_files_count"]

/-- Names of the scalar counter metrics (`counterMetrics` table). -/
def counterMetricNames : List String :=
  ["indices_fielddata_evictions",
   "indices_filter_cache_evictions",
   "indices_query_cache_evictions",
   "indices_request_cache_evictions",
   "indices_flush_total",
   "indices_flush_time_ms_total",
   "transport_rx_packets_total",
   "transport_rx_size_bytes_total",
   "transport_tx_packets_total",
   "transport_tx_size_bytes_total",
   "indices_store_throttle_time_ms_total",
   "indices_indexing_index_total",
   "indices_indexing_index_time_ms_total",
   "indices_merges_total",
   "indices_merges_total_docs_total",
   "indices_merges_total_size_bytes_total",
   "indices_merges_total_time_ms_total",
   "indices_refresh_total",
   "indices_refresh_total_time_ms_total"]

/-- Names of the labeled counter metrics (`counterVecMetrics` table). -/
def counterVecNames : List String :=
  ["jvm_gc_collection_seconds_count",
   "jvm_gc_collection_seconds_sum",
   "process_cpu_time_seconds_sum",
   "thread_pool_completed_count",
   "thread_pool_rejected_count"]

/-- Names of the labeled gauge metrics (`gaugeVecMetrics` table). -/
def gaugeVecNames : List String :=
  ["breakers_estimated_size_bytes",
   "breakers_limit_size_bytes",
   "jvm_memory_committed_bytes",
   "jvm_memory_used_bytes",
   "jvm_memory_max_bytes",
   "thread_pool_active_count",
   "thread_pool_largest_count",
   "thread_pool_queue_count",
   "thread_pool_threads_count"]

/-! ### Metric registry -/

/-- One metric family: label tuple to current value
(a prometheus `*Vec`'s children). -/
abbrev Family := List (List String × ℚ)

/-- A registry of families keyed by metric name (one of the four maps
`gauges`, `counters`, `gaugeVecs`, `counterVecs`). -/
abbrev Registry := List (String × Family)

/-- `WithLabelValues(ls...).Set(v)` on one family: overwrite the series
with these labels, or create it. -/
def setSeries (fam : Family) (ls : List String) (v : ℚ) : Family :=
  if fam.any (fun p => p.1 == ls) then
    fam.map (fun p => if p.1 == ls then (ls, v) else p)
  else
    fam ++ [(ls, v)]

/-- `m[name].WithLabelValues(ls...).Set(v)`: update the named family. -/
def setVal (r : Registry) (name : String) (ls : List String) (v : ℚ) :
    Registry :=
  r.map (fun p => if p.1 == name then (p.1, setSeries p.2 ls v) else p)

/-- `vec.Reset()` applied to every family of the registry: every family
loses all of its series; the catalog entries themselves remain. -/
def resetReg (r : Registry) : Registry :=
  r.map (fun p => (p.1, ([] : Family)))

/-- The current series of the named family (empty when the family is
absent or has no series). -/
def lookupFam (r : Registry) (name : String) : Family :=
  match r.find? (fun p => p.1 == name) with
  | some p => p.2
  | none => []

/-- The metric names present in a registry. -/
def regKeys (r : Registry) : List String := r.map Prod.fst

/-! ### Exporter state and collection cycle -/

/-- The exporter: the `up` gauge's value plus the four registries
(`Exporter` struct fields used by `Collect`). -/
structure Exporter where
  up : ℚ
  allNodes : Bool
  gauges : Registry
  gaugeVecs : Registry
  counters : Registry
  counterVecs : Registry

/-- `NewExporter`: all four registries initialized from the catalogs with
no series; a fresh gauge starts at 0. -/
def NewExporter (allNodes : Bool) : Exporter :=
  { up := 0
    allNodes := allNodes
    gauges := gaugeMetricNames.map (fun n => (n, ([] : Family)))
    gaugeVecs := gaugeVecNames.map (fun n => (n, ([] : Family)))
    counters := counterMetricNames.map (fun n => (n, ([] : Family)))
    counterVecs := counterVecNames.map (fun n => (n, ([] : Family))) }

/-- Outcome of one HTTP fetch + body read + JSON decode, the three
failure points of the source distinguished. -/
inductive FetchResult (α : Type) where
  | transportErr
  | readErr
  | decodeErr
  | ok (val : α)

/-- Whether a fetch outcome is a failure (any of the three error cases). -/
def FetchResult.failed : FetchResult α → Bool
  | .ok _ => false
  | _ => true

/-- What one `Collect` call emits on the channel: the `up` gauge values
sent (the deferred send), and the four registries as reported by the
final `vec.Collect(ch)` loops — empty when an early return skips them. -/
structure Exposition where
  upValues : List ℚ
  counterVecs : Registry
  gaugeVecs : Registry
  counters : Registry
  gauges : Registry

/-- An exposition where only the deferred `up` send happened. -/
def onlyUp (u : ℚ) : Exposition :=
  { upValues := [u], counterVecs := [], gaugeVecs := [], counters := [],
    gauges := [] }

/-- Body of the GC-collector loop (source lines 314-317). -/
def gcStep (cn hst : String) (e : Exporter)
    (col : String × GCCollectorStats) : Exporter :=
  let cv := setVal e.counterVecs "jvm_gc_collection_seconds_count"
    [cn, hst, col.1] (col.2.collectionCount : ℚ)
  let cv := setVal cv "jvm_gc_collection_seconds_sum"
    [cn, hst, col.1] ((goDiv col.2.collectionTime 1000 : Int) : ℚ)
  { e with counterVecs := cv }

/-- Body of the breaker loop (source lines 320-323). -/
def breakerStep (cn hst : String) (e : Exporter)
    (b : String × BreakerStats) : Exporter :=
  let gv := setVal e.gaugeVecs "breakers_estimated_size_bytes"
    [cn, hst, b.1] (b.2.estimatedSize : ℚ)
  let gv := setVal gv "breakers_limit_size_bytes"
    [cn, hst, b.1] (b.2.limitSize : ℚ)
  { e with gaugeVecs := gv }

/-- Body of the thread-pool loop (source lines 326-334): note that all
four gauge series receive the pool's `Active` value. -/
def threadPoolStep (cn hst : String) (e : Exporter)
    (tp : String × ThreadPoolStats) : Exporter :=
  let cv := setVal e.counterVecs "thread_pool_completed_count"
    [cn, hst, tp.1] (tp.2.completed : ℚ)
  let cv := setVal cv "thread_pool_rejected_count"
    [cn, hst, tp.1] (tp.2.rejected : ℚ)
  let gv := setVal e.gaugeVecs "thread_pool_active_count"
    [cn, hst, tp.1] (tp.2.active : ℚ)
  let gv := setVal gv "thread_pool_threads_count"
    [cn, hst, tp.1] (tp.2.active : ℚ)
  let gv := setVal gv "thread_pool_largest_count"
    [cn, hst, tp.1] (tp.2.active : ℚ)
  let gv := setVal gv "thread_pool_queue_count"
    [cn, hst, tp.1] (tp.2.active : ℚ)
  { e with counterVecs := cv, gaugeVecs := gv }

/-- Body of the `for _, stats := range allStats.Nodes` loop: populate
every node-scoped series from one node's snapshot (source lines
312-394), in source order. -/
def populateNode (cn : String) (e : Exporter) (stats : NodeStats) :
    Exporter :=
  -- GC stats
  let e := stats.jvm.gcCollectors.foldl (gcStep cn stats.host) e
  -- Breaker stats
  let e := stats.breakers.foldl (breakerStep cn stats.host) e
  -- Thread pool stats
  let e := stats.threadPool.foldl (threadPoolStep cn stats.host) e
  -- JVM memory stats
  let gv := setVal e.gaugeVecs "jvm_memory_committed_bytes"
    [cn, stats.host, "heap"] (stats.jvm.mem.heapCommitted : ℚ)
  let gv := setVal gv "jvm_memory_used_bytes"
    [cn, stats.host, "heap"] (stats.jvm.mem.heapUsed : ℚ)
  let gv := setVal gv "jvm_memory_max_bytes"
    [cn, stats.host, "heap"] (stats.jvm.mem.heapMax : ℚ)
  let gv := setVal gv "jvm_memory_committed_bytes"
    [cn, stats.host, "non-heap"] (stats.jvm.mem.nonHeapCommitted : ℚ)
  let gv := setVal gv "jvm_memory_used_bytes"
    [cn, stats.host, "non-heap"] (stats.jvm.mem.nonHeapUsed : ℚ)
  -- Indices stats
  let g := setVal e.gauges "indices_fielddata_memory_size_bytes"
    [cn, stats.host] (stats.indices.fieldData.memorySize : ℚ)
  let c := setVal e.counters "indices_fielddata_evictions"
    [cn, stats.host] (stats.indices.fieldData.evictions : ℚ)
  let g := setVal g "indices_filter_cache_memory_size_bytes"
    [cn, stats.host] (stats.indices.filterCache.memorySize : ℚ)
  let c := setVal c "indices_filter_cache_evictions"
    [cn, stats.host] (stats.indices.filterCache.evictions : ℚ)
  let g := setVal g "indices_query_cache_memory_size_bytes"
    [cn, stats.host] (stats.indices.queryCache.memorySize : ℚ)
  let c := setVal c "indices_query_cache_evictions"
    [cn, stats.host] (stats.indices.queryCache.evictions : ℚ)
  let g := setVal g "indices_request_cache_memory_size_bytes"
    [cn, stats.host] (stats.indices.queryCache.memorySize : ℚ)
  let c := setVal c "indices_request_cache_evictions"
    [cn, stats.host] (stats.indices.queryCache.evictions : ℚ)
  let g := setVal g "indices_docs"
    [cn, stats.host] (stats.indices.docs.count : ℚ)
  let g := setVal g "indices_docs_deleted"
    [cn, stats.host] (stats.indices.docs.deleted : ℚ)
  let g := setVal g "indices_segments_memory_bytes"
    [cn, stats.host] (stats.indices.segments.memory : ℚ)
  let g := setVal g "indices_segments_count"
    [cn, stats.host] (stats.indices.segments.count : ℚ)
  let g := setVal g "indices_store_size_bytes"
    [cn, stats.host] (stats.indices.store.size : ℚ)
  let c := setVal c "indices_store_throttle_time_ms_total"
    [cn, stats.host] (stats.indices.store.throttleTime : ℚ)
  let c := setVal c "indices_flush_total"
    [cn, stats.host] (stats.indices.flush.total : ℚ)
  let c := setVal c "indices_flush_time_ms_total"
    [cn, stats.host] (stats.indices.flush.time : ℚ)
  let c := setVal c "indices_indexing_index_time_ms_total"
    [cn, stats.host] (stats.indices.indexing.indexTime : ℚ)
  let c := setVal c "indices_indexing_index_total"
    [cn, stats.host] (stats.indices.indexing.indexTotal : ℚ)
  let c := setVal c "indices_merges_total_time_ms_total"
    [cn, stats.host] (stats.indices.merges.totalTime : ℚ)
  let c := setVal c "indices_merges_total_size_bytes_total"
    [cn, stats.host] (stats.indices.merges.totalSize : ℚ)
  let c := setVal c "indices_merges_total"
    [cn, stats.host] (stats.indices.merges.total : ℚ)
  let c := setVal c "indices_refresh_total_time_ms_total"
    [cn, stats.host] (stats.indices.refresh.totalTime : ℚ)
  let c := setVal c "indices_refresh_total"
    [cn, stats.host] (stats.indices.refresh.total : ℚ)
  -- Transport stats
  let c := setVal c "transport_rx_packets_total"
    [cn, stats.host] (stats.transport.rxCount : ℚ)
  let c := setVal c "transport_rx_size_bytes_total"
    [cn, stats.host] (stats.transport.rxSize : ℚ)
  let c := setVal c "transport_tx_packets_total"
    [cn, stats.host] (stats.transport.txCount : ℚ)
  let c := setVal c "transport_tx_size_bytes_total"
    [cn, stats.host] (stats.transport.txSize : ℚ)
  -- Process stats
  let g := setVal g "process_cpu_percent"
    [cn, stats.host] (stats.process.cpu.percent : ℚ)
  let g := setVal g "process_mem_resident_size_bytes"
    [cn, stats.host] (stats.process.memory.resident : ℚ)
  let g := setVal g "process_mem_share_size_bytes"
    [cn, stats.host] (stats.process.memory.share : ℚ)
  let g := setVal g "process_mem_virtual_size_bytes"
    [cn, stats.host] (stats.process.memory.totalVirtual : ℚ)
  let g := setVal g "process_open_files_count"
    [cn, stats.host] (stats.process.openFD : ℚ)
  let cv := setVal e.counterVecs "process_cpu_time_seconds_sum"
    [cn, stats.host, "total"] ((goDiv stats.process.cpu.total 1000 : Int) : ℚ)
  let cv := setVal cv "process_cpu_time_seconds_sum"
    [cn, stats.host, "sys"] ((goDiv stats.process.cpu.sys 1000 : Int) : ℚ)
  let cv := setVal cv "process_cpu_time_seconds_sum"
    [cn, stats.host, "user"] ((goDiv stats.process.cpu.user 1000 : Int) : ℚ)
  { e with gaugeVecs := gv, gauges := g, counters := c, counterVecs := cv }

/-- Body of the node loop: the node id is ignored, only the stats are
used. -/
def nodeStep (cn : String) (e : Exporter) (n : String × NodeStats) :
    Exporter :=
  populateNode cn e n.2

/-- The reset loops at the start of `Collect`: every registry's families
are cleared (the `up` gauge is not a vec and is not reset). -/
def resetAll (e : Exporter) : Exporter :=
  { e with gaugeVecs := resetReg e.gaugeVecs
           counterVecs := resetReg e.counterVecs
           gauges := resetReg e.gauges
           counters := resetReg e.counters }

/-- Everything in `Collect` after the reset loops and the registration of
the deferred `ch <- e.up`: fetch node stats, populate, fetch cluster
health, populate health gauges, and run the final report loops — each
early `return` skips the report loops, while the deferred `up` send
always happens exactly once. -/
def collectCore (e : Exporter) (nodeFetch : FetchResult NodeStatsResponse)
    (clusterFetch : FetchResult ClusterHealthResponse) :
    Exporter × Exposition :=
  match nodeFetch with
  | .transportErr =>
    let e := { e with up := (0 : ℚ) }
    (e, onlyUp e.up)
  | .readErr =>
    let e := { e with up := (0 : ℚ) }
    (e, onlyUp e.up)
  | .decodeErr =>
    -- `e.up.Set(1)` ran after the body was read, before the decode failed.
    let e := { e with up := (1 : ℚ) }
    (e, onlyUp e.up)
  | .ok allStats =>
    let e := { e with up := (1 : ℚ) }
    let e := allStats.nodes.foldl (nodeStep allStats.clusterName) e
    match clusterFetch with
    | .transportErr => (e, onlyUp e.up)
    | .readErr => (e, onlyUp e.up)
    | .decodeErr => (e, onlyUp e.up)
    | .ok clusterStat =>
      let statusVal : ℚ :=
        match clusterStat.status with
        | "green" => 0
        | "yellow" => 1
        | "red" => 2
        | _ => 0
      let g := setVal e.gauges "cluster_health_status"
        [clusterStat.clusterName, "unknown"] statusVal
      let g := setVal g "cluster_health_timed_out"
        [clusterStat.clusterName, "unknown"]
        (if clusterStat.timedOut then 1 else 0)
      let g := setVal g "cluster_number_of_nodes_total"
        [clusterStat.clusterName, "unknown"] (clusterStat.numberOfNodes : ℚ)
      let g := setVal g "cluster_number_of_data_nodes_total"
        [clusterStat.clusterName, "unknown"]
        (clusterStat.numberOfDataNodes : ℚ)
      let e := { e with gauges := g }
      (e, { upValues := [e.up]
            counterVecs := e.counterVecs
            gaugeVecs := e.gaugeVecs
            counters := e.counters
            gauges := e.gauges })

/-- `Exporter.Collect`: reset, then fetch/populate/report. The fetch
outcomes are explicit inputs; the returned pair is the exporter state
after the cycle and what was emitted on the channel. -/
def Exporter.Collect (e : Exporter)
    (nodeFetch : FetchResult NodeStatsResponse)
    (clusterFetch : FetchResult ClusterHealthResponse) :
    Exporter × Exposition :=
  collectCore (resetAll e) nodeFetch clusterFetch

/-! ### Basic registry lemmas -/

theorem lookupFam_setVal_ne {r : Registry} {n m : String}
    {ls : List String} {v : ℚ} (h : n ≠ m) :
    lookupFam (setVal r m ls v) n = lookupFam r n := by
  unfold lookupFam setVal
  rw [List.find?_map]
  have hcomp : ((fun p : String × Family => p.1 == n) ∘
      fun p : String × Family =>
        if p.1 == m then (p.1, setSeries p.2 ls v) else p) =
      fun p : String × Family => p.1 == n := by
    funext p
    by_cases hp : p.1 = m <;> simp [hp]
  rw [hcomp]
  cases hf : List.find? (fun p : String × Family => p.1 == n) r with
  | none => rfl
  | some p =>
    have hpn : p.1 = n := by simpa using List.find?_some hf
    simp [hpn, h]

theorem lookupFam_setVal_self {r : Registry} {m : String}
    {ls : List String} {v : ℚ} (h : m ∈ regKeys r) :
    lookupFam (setVal r m ls v) m = setSeries (lookupFam r m) ls v := by
  unfold lookupFam setVal
  rw [List.find?_map]
  have hcomp : ((fun p : String × Family => p.1 == m) ∘
      fun p : String × Family =>
        if p.1 == m then (p.1, setSeries p.2 ls v) else p) =
      fun p : String × Family => p.1 == m := by
    funext p
    by_cases hp : p.1 = m <;> simp [hp]
  rw [hcomp]
  cases hf : List.find? (fun p : String × Family => p.1 == m) r with
  | none =>
    exfalso
    obtain ⟨p, hp, hpm⟩ := List.mem_map.mp h
    have := List.find?_eq_none.mp hf p hp
    simp [hpm] at this
  | some p =>
    have hpm : p.1 = m := by simpa using List.find?_some hf
    simp [hpm]

theorem lookupFam_resetReg (r : Registry) (n : String) :
    lookupFam (resetReg r) n = [] := by
  unfold lookupFam resetReg
  rw [List.find?_map]
  have hcomp : ((fun p : String × Family => p.1 == n) ∘
      fun p : String × Family => (p.1, ([] : Family))) =
      fun p : String × Family => p.1 == n := by
    funext p; rfl
  rw [hcomp]
  cases List.find? (fun p : String × Family => p.1 == n) r with
  | none => rfl
  | some p => rfl

theorem lookupFam_nil (n : String) : lookupFam ([] : Registry) n = [] := rfl

theorem regKeys_setVal (r : Registry) (m : String) (ls : List String)
    (v : ℚ) : regKeys (setVal r m ls v) = regKeys r := by
  unfold regKeys setVal
  rw [List.map_map]
  congr 1
  funext p
  by_cases hp : p.1 = m <;> simp [hp]

theorem regKeys_resetReg (r : Registry) : regKeys (resetReg r) = regKeys r := by
  unfold regKeys resetReg
  rw [List.map_map]
  rfl

theorem resetReg_keys_congr {r' r : Registry} (h : regKeys r' = regKeys r) :
    resetReg r' = resetReg r := by
  have hmap : ∀ s : Registry,
      resetReg s = (regKeys s).map (fun n => (n, ([] : Family))) := by
    intro s
    unfold resetReg regKeys
    rw [List.map_map]
    rfl
  rw [hmap, hmap, h]

/-- Every step of a fold preserving a predicate preserves it overall. -/
theorem foldl_preserves {α β : Type} {f : β → α → β} {P : β → Prop}
    (h : ∀ b a, P b → P (f b a)) :
    ∀ (l : List α) (b : β), P b → P (List.foldl f b l)
  | [], _, hb => hb
  | a :: t, b, hb => foldl_preserves h t (f b a) (h b a hb)

/-- A function of the state that every fold step preserves is preserved
by the whole fold. -/
theorem foldl_proj {σ α β : Type} (g : σ → β) (f : σ → α → σ)
    (h : ∀ e a, g (f e a) = g e) (l : List α) (e : σ) :
    g (List.foldl f e l) = g e := by
  induction l generalizing e with
  | nil => rfl
  | cons a t ih => rw [List.foldl_cons, ih, h]

theorem populateNode_keys_gauges (cn : String) (e : Exporter)
    (s : NodeStats) :
    regKeys (populateNode cn e s).gauges = regKeys e.gauges := by
  simp only [populateNode, regKeys_setVal]
  rw [foldl_proj Exporter.gauges (threadPoolStep cn s.host) (fun _ _ => rfl),
    foldl_proj Exporter.gauges (breakerStep cn s.host) (fun _ _ => rfl),
    foldl_proj Exporter.gauges (gcStep cn s.host) (fun _ _ => rfl)]

theorem breakerStep_keys_gaugeVecs (cn hst : String) (e : Exporter)
    (b : String × BreakerStats) :
    regKeys (breakerStep cn hst e b).gaugeVecs = regKeys e.gaugeVecs := by
  simp [breakerStep, regKeys_setVal]

theorem threadPoolStep_keys_gaugeVecs (cn hst : String) (e : Exporter)
    (tp : String × ThreadPoolStats) :
    regKeys (threadPoolStep cn hst e tp).gaugeVecs = regKeys e.gaugeVecs := by
  simp [threadPoolStep, regKeys_setVal]

theorem gcStep_keys_counterVecs (cn hst : String) (e : Exporter)
    (col : String × GCCollectorStats) :
    regKeys (gcStep cn hst e col).counterVecs = regKeys e.counterVecs := by
  simp [gcStep, regKeys_setVal]

theorem threadPoolStep_keys_counterVecs (cn hst : String) (e : Exporter)
    (tp : String × ThreadPoolStats) :
    regKeys (threadPoolStep cn hst e tp).counterVecs =
      regKeys e.counterVecs := by
  simp [threadPoolStep, regKeys_setVal]

theorem populateNode_keys_counters (cn : String) (e : Exporter)
    (s : NodeStats) :
    regKeys (populateNode cn e s).counters = regKeys e.counters := by
  simp only [populateNode, regKeys_setVal]
  rw [foldl_proj Exporter.counters (threadPoolStep cn s.host) (fun _ _ => rfl),
    foldl_proj Exporter.counters (breakerStep cn s.host) (fun _ _ => rfl),
    foldl_proj Exporter.counters (gcStep cn s.host) (fun _ _ => rfl)]

theorem populateNode_keys_gaugeVecs (cn : String) (e : Exporter)
    (s : NodeStats) :
    regKeys (populateNode cn e s).gaugeVecs = regKeys e.gaugeVecs := by
  simp only [populateNode, regKeys_setVal]
  rw [foldl_proj (fun x : Exporter => regKeys x.gaugeVecs)
      (threadPoolStep cn s.host) (threadPoolStep_keys_gaugeVecs cn s.host),
    foldl_proj (fun x : Exporter => regKeys x.gaugeVecs)
      (breakerStep cn s.host) (breakerStep_keys_gaugeVecs cn s.host),
    foldl_proj (fun x : Exporter => regKeys x.gaugeVecs)
      (gcStep cn s.host) (fun _ _ => rfl)]

theorem populateNode_keys_counterVecs (cn : String) (e : Exporter)
    (s : NodeStats) :
    regKeys (populateNode cn e s).counterVecs = regKeys e.counterVecs := by
  simp only [populateNode, regKeys_setVal]
  rw [foldl_proj (fun x : Exporter => regKeys x.counterVecs)
      (threadPoolStep cn s.host) (threadPoolStep_keys_counterVecs cn s.host),
    foldl_proj (fun x : Exporter => regKeys x.counterVecs)
      (breakerStep cn s.host) (fun _ _ => rfl),
    foldl_proj (fun x : Exporter => regKeys x.counterVecs)
      (gcStep cn s.host) (gcStep_keys_counterVecs cn s.host)]

theorem populateNode_up (cn : String) (e : Exporter) (s : NodeStats) :
    (populateNode cn e s).up = e.up := by
  simp only [populateNode]
  rw [foldl_proj Exporter.up (threadPoolStep cn s.host) (fun _ _ => rfl),
    foldl_proj Exporter.up (breakerStep cn s.host) (fun _ _ => rfl),
    foldl_proj Exporter.up (gcStep cn s.host) (fun _ _ => rfl)]

theorem populateNode_allNodes (cn : String) (e : Exporter) (s : NodeStats) :
    (populateNode cn e s).allNodes = e.allNodes := by
  simp only [populateNode]
  rw [foldl_proj Exporter.allNodes (threadPoolStep cn s.host) (fun _ _ => rfl),
    foldl_proj Exporter.allNodes (breakerStep cn s.host) (fun _ _ => rfl),
    foldl_proj Exporter.allNodes (gcStep cn s.host) (fun _ _ => rfl)]

/-- The scalar gauge names written by the per-node populate phase, in the
order the source sets them. -/
def nodeGaugeNames : List String :=
  ["indices_fielddata_memory_size_bytes",
   "indices_filter_cache_memory_size_bytes",
   "indices_query_cache_memory_size_bytes",
   "indices_request_cache_memory_size_bytes",
   "indices_docs",
   "indices_docs_deleted",
   "indices_segments_memory_bytes",
   "indices_segments_count",
   "indices_store_size_bytes",
   "process_cpu_percent",
   "process_mem_resident_size_bytes",
   "process_mem_share_size_bytes",
   "process_mem_virtual_size_bytes",
   "process_open_files_count"]

/-- The per-node populate phase leaves any scalar gauge family it does
not write untouched. -/
theorem populateNode_gauges_lookup (cn : String) (e : Exporter)
    (s : NodeStats) {n : String} (h : n ∉ nodeGaugeNames) :
    lookupFam (populateNode cn e s).gauges n = lookupFam e.gauges n := by
  simp only [nodeGaugeNames, List.mem_cons, List.not_mem_nil, or_false,
    not_or] at h
  obtain ⟨h1, h2, h3, h4, h5, h6, h7, h8, h9, h10, h11, h12, h13, h14⟩ := h
  simp only [populateNode]
  rw [lookupFam_setVal_ne h14, lookupFam_setVal_ne h13,
    lookupFam_setVal_ne h12, lookupFam_setVal_ne h11,
    lookupFam_setVal_ne h10, lookupFam_setVal_ne h9,
    lookupFam_setVal_ne h8, lookupFam_setVal_ne h7,
    lookupFam_setVal_ne h6, lookupFam_setVal_ne h5,
    lookupFam_setVal_ne h4, lookupFam_setVal_ne h3,
    lookupFam_setVal_ne h2, lookupFam_setVal_ne h1,
    foldl_proj Exporter.gauges (threadPoolStep cn s.host) (fun _ _ => rfl),
    foldl_proj Exporter.gauges (breakerStep cn s.host) (fun _ _ => rfl),
    foldl_proj Exporter.gauges (gcStep cn s.host) (fun _ _ => rfl)]

theorem nodesFold_up (cn : String) (l : List (String × NodeStats))
    (e : Exporter) : (l.foldl (nodeStep cn) e).up = e.up :=
  foldl_proj Exporter.up (nodeStep cn)
    (fun b a => populateNode_up cn b a.2) l e

theorem nodesFold_gauges_lookup (cn : String)
    (l : List (String × NodeStats)) (e : Exporter) {n : String}
    (h : n ∉ nodeGaugeNames) :
    lookupFam (l.foldl (nodeStep cn) e).gauges n = lookupFam e.gauges n :=
  foldl_proj (fun x : Exporter => lookupFam x.gauges n) (nodeStep cn)
    (fun b a => populateNode_gauges_lookup cn b a.2 h) l e

/-! ### Fixtures -/

/-- A node snapshot with every numeric field zero and no collectors,
breakers or pools. -/
def zeroNode : NodeStats :=
  { host := "n1"
    jvm := { gcCollectors := [], mem := ⟨0, 0, 0, 0, 0⟩ }
    breakers := []
    threadPool := []
    indices :=
      { fieldData := ⟨0, 0⟩, filterCache := ⟨0, 0⟩, queryCache := ⟨0, 0⟩
        requestCache := ⟨0, 0⟩, docs := ⟨0, 0⟩, segments := ⟨0, 0⟩
        store := ⟨0, 0⟩, flush := ⟨0, 0⟩, indexing := ⟨0, 0⟩
        merges := ⟨0, 0, 0⟩, refresh := ⟨0, 0⟩ }
    transport := ⟨0, 0, 0, 0⟩
    process := { cpu := ⟨0, 0, 0, 0⟩, memory := ⟨0, 0, 0⟩, openFD := 0 } }

/-- A cluster-health document with green status. -/
def greenHealth : ClusterHealthResponse :=
  { clusterName := "c", status := "green", timedOut := false
    numberOfNodes := 3, numberOfDataNodes := 2 }

/-! ### C6: exactly one availability value per cycle -/

/-- C6: every collection cycle, regardless of which step fails
(transport, body read, decode, or the cluster-health fetch), emits
exactly one availability value — the deferred send of the `up` gauge
registered before the first fetch. -/
theorem c6_one_up_per_cycle (e : Exporter)
    (nf : FetchResult NodeStatsResponse)
    (cf : FetchResult ClusterHealthResponse) :
    (e.Collect nf cf).2.upValues = [(e.Collect nf cf).1.up] ∧
    (e.Collect nf cf).2.upValues.length = 1 := by
  cases nf <;> cases cf <;> exact ⟨rfl, rfl⟩

/-! ### C3: availability after a node-stats decode failure -/

/-- C3 counterexample: when the node-stats body reads fine but does not
decode, the cycle reports availability 1, not 0 as the claim states —
`up` was already set to 1 right after the body read. -/
theorem c3_decode_counterexample :
    ((NewExporter false).Collect .decodeErr .transportErr).2.upValues =
      [1] ∧ (1 : ℚ) ≠ 0 := by
  exact ⟨rfl, by norm_num⟩

/-- C3 amended: a node-stats decode failure reports availability = 1;
availability is 0 only on a transport or body-read failure. -/
theorem c3_decode_availability (e : Exporter)
    (cf : FetchResult ClusterHealthResponse) :
    (e.Collect .decodeErr cf).2.upValues = [1] := rfl

/-! ### C2: node stats succeed, cluster health fails -/

/-- A node snapshot holding five documents, used to witness a populated
node-scoped series. -/
def docsNode : NodeStats :=
  { zeroNode with indices := { zeroNode.indices with docs := ⟨5, 0⟩ } }

/-- C2 counterexample: with a node-stats document that populates
`indices_docs` and a failing cluster-health fetch, availability is 1 and
the registry holds the node-scoped series, yet the series is absent from
the cycle's exposition — the early return skips the final report loops,
refuting the claim that every populated node-scoped series is present. -/
theorem c2_cluster_fail_counterexample :
    (((NewExporter true).Collect
        (.ok { clusterName := "c", nodes := [("id1", docsNode)] })
        .transportErr).2.upValues = [1]) ∧
    lookupFam ((NewExporter true).Collect
        (.ok { clusterName := "c", nodes := [("id1", docsNode)] })
        .transportErr).1.gauges "indices_docs" = [(["c", "n1"], 5)] ∧
    lookupFam ((NewExporter true).Collect
        (.ok { clusterName := "c", nodes := [("id1", docsNode)] })
        .transportErr).2.gauges "indices_docs" = [] := by
  exact ⟨rfl, rfl, rfl⟩

/-- C2 amended: when the node-stats fetch succeeds and the cluster-health
fetch fails, availability is 1 and all cluster-health series are absent,
but the node-scoped series — although populated in the registry — are
also absent from the exposition: the early return on the cluster-health
failure skips the report loops, so only the availability value is
emitted. -/
theorem c2_cluster_fail_only_up (e : Exporter) (resp : NodeStatsResponse)
    (cf : FetchResult ClusterHealthResponse) (h : cf.failed = true) :
    (e.Collect (.ok resp) cf).2 = onlyUp 1 := by
  cases cf with
  | ok cs => simp [FetchResult.failed] at h
  | transportErr =>
    show onlyUp (resp.nodes.foldl (nodeStep resp.clusterName) _).up = _
    rw [nodesFold_up]
  | readErr =>
    show onlyUp (resp.nodes.foldl (nodeStep resp.clusterName) _).up = _
    rw [nodesFold_up]
  | decodeErr =>
    show onlyUp (resp.nodes.foldl (nodeStep resp.clusterName) _).up = _
    rw [nodesFold_up]

/-- C2 witness: the amended theorem applied at a concrete failing
cluster fetch. -/
theorem c2_cluster_fail_only_up_witness :
    (FetchResult.transportErr : FetchResult ClusterHealthResponse).failed
      = true ∧
    ((NewExporter true).Collect
      (.ok { clusterName := "c", nodes := [("id1", docsNode)] })
      .transportErr).2 = onlyUp 1 :=
  ⟨rfl, c2_cluster_fail_only_up (NewExporter true)
    { clusterName := "c", nodes := [("id1", docsNode)] }
    .transportErr rfl⟩

/-! ### C10: `process_max_files_count` is declared but never populated -/

/-- C10: the `process_max_files_count` family, although declared in the
gauge catalog, is never written by any collection cycle: after any cycle
it has no series in the registry and is absent from the exposition. -/
theorem c10_max_files_never_populated (e : Exporter)
    (nf : FetchResult NodeStatsResponse)
    (cf : FetchResult ClusterHealthResponse) :
    lookupFam (e.Collect nf cf).1.gauges "process_max_files_count" = [] ∧
    lookupFam (e.Collect nf cf).2.gauges "process_max_files_count" = [] := by
  have hn : "process_max_files_count" ∉ nodeGaugeNames := by decide
  cases nf with
  | transportErr => exact ⟨lookupFam_resetReg e.gauges _, rfl⟩
  | readErr => exact ⟨lookupFam_resetReg e.gauges _, rfl⟩
  | decodeErr => exact ⟨lookupFam_resetReg e.gauges _, rfl⟩
  | ok resp =>
    have hfold : lookupFam (resp.nodes.foldl (nodeStep resp.clusterName)
        { resetAll e with up := (1 : ℚ) }).gauges
        "process_max_files_count" = [] :=
      (nodesFold_gauges_lookup resp.clusterName resp.nodes
        { resetAll e with up := (1 : ℚ) } hn).trans
        (lookupFam_resetReg e.gauges _)
    cases cf with
    | transportErr => exact ⟨hfold, rfl⟩
    | readErr => exact ⟨hfold, rfl⟩
    | decodeErr => exact ⟨hfold, rfl⟩
    | ok cs =>
      have hmain : lookupFam
          (e.Collect (.ok resp) (.ok cs)).1.gauges
          "process_max_files_count" = [] := by
        show lookupFam (setVal (setVal (setVal (setVal _
          "cluster_health_status" _ _) "cluster_health_timed_out" _ _)
          "cluster_number_of_nodes_total" _ _)
          "cluster_number_of_data_nodes_total" _ _)
          "process_max_files_count" = []
        rw [lookupFam_setVal_ne (by decide),
          lookupFam_setVal_ne (by decide),
          lookupFam_setVal_ne (by decide),
          lookupFam_setVal_ne (by decide)]
        exact hfold
      exact ⟨hmain, hmain⟩

/-! ### Well-formedness: the registries carry exactly the catalog keys -/

/-- An exporter whose four registries are keyed exactly by the four
catalogs, as `NewExporter` builds them. -/
def wellFormed (e : Exporter) : Prop :=
  regKeys e.gauges = gaugeMetricNames ∧
  regKeys e.gaugeVecs = gaugeVecNames ∧
  regKeys e.counters = counterMetricNames ∧
  regKeys e.counterVecs = counterVecNames

theorem NewExporter_wellFormed (a : Bool) : wellFormed (NewExporter a) :=
  ⟨rfl, rfl, rfl, rfl⟩

theorem nodesFold_keys_gauges (cn : String)
    (l : List (String × NodeStats)) (e : Exporter) :
    regKeys (l.foldl (nodeStep cn) e).gauges = regKeys e.gauges :=
  foldl_proj (fun x : Exporter => regKeys x.gauges) (nodeStep cn)
    (fun b a => populateNode_keys_gauges cn b a.2) l e

theorem nodesFold_keys_gaugeVecs (cn : String)
    (l : List (String × NodeStats)) (e : Exporter) :
    regKeys (l.foldl (nodeStep cn) e).gaugeVecs = regKeys e.gaugeVecs :=
  foldl_proj (fun x : Exporter => regKeys x.gaugeVecs) (nodeStep cn)
    (fun b a => populateNode_keys_gaugeVecs cn b a.2) l e

theorem nodesFold_keys_counters (cn : String)
    (l : List (String × NodeStats)) (e : Exporter) :
    regKeys (l.foldl (nodeStep cn) e).counters = regKeys e.counters :=
  foldl_proj (fun x : Exporter => regKeys x.counters) (nodeStep cn)
    (fun b a => populateNode_keys_counters cn b a.2) l e

theorem nodesFold_keys_counterVecs (cn : String)
    (l : List (String × NodeStats)) (e : Exporter) :
    regKeys (l.foldl (nodeStep cn) e).counterVecs = regKeys e.counterVecs :=
  foldl_proj (fun x : Exporter => regKeys x.counterVecs) (nodeStep cn)
    (fun b a => populateNode_keys_counterVecs cn b a.2) l e

/-! ### C5: health status ordinal mapping -/

/-- On a fully successful cycle, the `cluster_health_status` family holds
exactly one series, labeled by the health document's cluster name and the
sentinel node label, valued by the status switch of the source. -/
theorem health_status_family (e : Exporter) (resp : NodeStatsResponse)
    (cs : ClusterHealthResponse) (hwf : wellFormed e) :
    lookupFam (e.Collect (.ok resp) (.ok cs)).2.gauges
        "cluster_health_status" =
      [([cs.clusterName, "unknown"],
        (match cs.status with
         | "green" => (0 : ℚ)
         | "yellow" => 1
         | "red" => 2
         | _ => 0))] := by
  obtain ⟨hg, -, -, -⟩ := hwf
  have hkeys : regKeys (resp.nodes.foldl (nodeStep resp.clusterName)
      { resetAll e with up := (1 : ℚ) }).gauges = gaugeMetricNames := by
    rw [nodesFold_keys_gauges]
    show regKeys (resetReg e.gauges) = _
    rw [regKeys_resetReg, hg]
  have hmem : "cluster_health_status" ∈ regKeys (resp.nodes.foldl
      (nodeStep resp.clusterName)
      { resetAll e with up := (1 : ℚ) }).gauges := by
    rw [hkeys]; decide
  have hempty : lookupFam (resp.nodes.foldl (nodeStep resp.clusterName)
      { resetAll e with up := (1 : ℚ) }).gauges "cluster_health_status" =
      [] :=
    (nodesFold_gauges_lookup resp.clusterName resp.nodes
      { resetAll e with up := (1 : ℚ) } (by decide)).trans
      (lookupFam_resetReg e.gauges _)
  show lookupFam (setVal (setVal (setVal (setVal _
    "cluster_health_status" _ _) "cluster_health_timed_out" _ _)
    "cluster_number_of_nodes_total" _ _)
    "cluster_number_of_data_nodes_total" _ _)
    "cluster_health_status" = _
  rw [lookupFam_setVal_ne (by decide), lookupFam_setVal_ne (by decide),
    lookupFam_setVal_ne (by decide), lookupFam_setVal_self hmem, hempty]
  rfl

/-- C5: on every successfully fetched and decoded cluster-health
document, the exposed `cluster_health_status` value is exactly 0 for
"green", 1 for "yellow", 2 for "red", and 0 for any other status
string. -/
theorem c5_health_ordinal (e : Exporter) (resp : NodeStatsResponse)
    (cs : ClusterHealthResponse) (hwf : wellFormed e) :
    (cs.status = "green" →
      lookupFam (e.Collect (.ok resp) (.ok cs)).2.gauges
        "cluster_health_status" =
        [([cs.clusterName, "unknown"], (0 : ℚ))]) ∧
    (cs.status = "yellow" →
      lookupFam (e.Collect (.ok resp) (.ok cs)).2.gauges
        "cluster_health_status" =
        [([cs.clusterName, "unknown"], (1 : ℚ))]) ∧
    (cs.status = "red" →
      lookupFam (e.Collect (.ok resp) (.ok cs)).2.gauges
        "cluster_health_status" =
        [([cs.clusterName, "unknown"], (2 : ℚ))]) ∧
    (cs.status ≠ "green" → cs.status ≠ "yellow" → cs.status ≠ "red" →
      lookupFam (e.Collect (.ok resp) (.ok cs)).2.gauges
        "cluster_health_status" =
        [([cs.clusterName, "unknown"], (0 : ℚ))]) := by
  have hfam := health_status_family e resp cs hwf
  refine ⟨?_, ?_, ?_, ?_⟩
  · intro h
    rw [hfam, h]
    rfl
  · intro h
    rw [hfam, h]
    rfl
  · intro h
    rw [hfam, h]
    rfl
  · intro h1 h2 h3
    rw [hfam]
    have hv : (match cs.status with
        | "green" => (0 : ℚ)
        | "yellow" => 1
        | "red" => 2
        | _ => 0) = 0 := by
      split
      · rfl
      · rename_i hh
        exact absurd hh h2
      · rename_i hh
        exact absurd hh h3
      · rfl
    rw [hv]

/-- C5 witness: the ordinal mapping at the green fixture through a
freshly constructed exporter. -/
theorem c5_health_ordinal_witness :
    wellFormed (NewExporter true) ∧
    lookupFam ((NewExporter true).Collect
        (.ok { clusterName := "c", nodes := [("id1", docsNode)] })
        (.ok greenHealth)).2.gauges "cluster_health_status" =
      [(["c", "unknown"], (0 : ℚ))] :=
  ⟨NewExporter_wellFormed true,
    (c5_health_ordinal (NewExporter true)
      { clusterName := "c", nodes := [("id1", docsNode)] } greenHealth
      (NewExporter_wellFormed true)).1 rfl⟩

/-! ### State independence: reset-before-populate kills stale series -/

theorem resetAll_eq (e' e : Exporter) (hA : e'.allNodes = e.allNodes)
    (h1 : regKeys e'.gauges = regKeys e.gauges)
    (h2 : regKeys e'.gaugeVecs = regKeys e.gaugeVecs)
    (h3 : regKeys e'.counters = regKeys e.counters)
    (h4 : regKeys e'.counterVecs = regKeys e.counterVecs) :
    resetAll e' = { resetAll e with up := e'.up } := by
  unfold resetAll
  rw [hA, resetReg_keys_congr h1, resetReg_keys_congr h2,
    resetReg_keys_congr h3, resetReg_keys_congr h4]

/-- The value the `up` gauge holds on entry is irrelevant: every path of
the cycle overwrites it before it is emitted. -/
theorem collectCore_up_irrel (e : Exporter) (u : ℚ)
    (nf : FetchResult NodeStatsResponse)
    (cf : FetchResult ClusterHealthResponse) :
    collectCore { e with up := u } nf cf = collectCore e nf cf := by
  cases nf <;> cases cf <;> rfl

/-- Two exporters that agree on configuration and registry keys produce
identical cycles whatever series their registries held before: the reset
phase erases all previous series. -/
theorem Collect_state_indep (e' e : Exporter) (hA : e'.allNodes = e.allNodes)
    (h1 : regKeys e'.gauges = regKeys e.gauges)
    (h2 : regKeys e'.gaugeVecs = regKeys e.gaugeVecs)
    (h3 : regKeys e'.counters = regKeys e.counters)
    (h4 : regKeys e'.counterVecs = regKeys e.counterVecs)
    (nf : FetchResult NodeStatsResponse)
    (cf : FetchResult ClusterHealthResponse) :
    e'.Collect nf cf = e.Collect nf cf := by
  unfold Exporter.Collect
  rw [resetAll_eq e' e hA h1 h2 h3 h4, collectCore_up_irrel]

/-! ### C4: no stale label tuple survives a cycle -/

/-- C4: a completed cycle's registry and exposition carry exactly the
series of that cycle's fetches: the cycle started from any well-formed
prior state equals the cycle started from a freshly constructed exporter,
so no label tuple populated in a previous cycle (for example a node that
left the cluster) persists. -/
theorem c4_no_stale_series (e : Exporter)
    (nf : FetchResult NodeStatsResponse)
    (cf : FetchResult ClusterHealthResponse) (hwf : wellFormed e) :
    e.Collect nf cf = (NewExporter e.allNodes).Collect nf cf := by
  obtain ⟨hg, hgv, hc, hcv⟩ := hwf
  exact Collect_state_indep e (NewExporter e.allNodes) rfl hg hgv hc hcv
    nf cf

/-- An exporter still holding a series for a node that has since left the
cluster. -/
def staleExporter : Exporter :=
  { NewExporter true with
    gauges := setVal (NewExporter true).gauges "indices_docs"
      ["oldcluster", "gone-node"] 7 }

/-- C4 witness: the stale exporter's next cycle equals a fresh
exporter's cycle on the same fetches, so the stale tuple is gone. -/
theorem c4_no_stale_series_witness :
    wellFormed staleExporter ∧
    staleExporter.Collect
        (.ok { clusterName := "c", nodes := [("id1", docsNode)] })
        (.ok greenHealth) =
      (NewExporter staleExporter.allNodes).Collect
        (.ok { clusterName := "c", nodes := [("id1", docsNode)] })
        (.ok greenHealth) :=
  ⟨⟨rfl, rfl, rfl, rfl⟩, c4_no_stale_series staleExporter
    (.ok { clusterName := "c", nodes := [("id1", docsNode)] })
    (.ok greenHealth) ⟨rfl, rfl, rfl, rfl⟩⟩

/-! ### C7: a cycle is idempotent in the registry state -/

theorem nodesFold_allNodes (cn : String) (l : List (String × NodeStats))
    (e : Exporter) : (l.foldl (nodeStep cn) e).allNodes = e.allNodes :=
  foldl_proj Exporter.allNodes (nodeStep cn)
    (fun b a => populateNode_allNodes cn b a.2) l e

theorem Collect_allNodes (e : Exporter)
    (nf : FetchResult NodeStatsResponse)
    (cf : FetchResult ClusterHealthResponse) :
    (e.Collect nf cf).1.allNodes = e.allNodes := by
  cases nf with
  | transportErr => rfl
  | readErr => rfl
  | decodeErr => rfl
  | ok resp =>
    cases cf with
    | transportErr => exact nodesFold_allNodes _ _ _
    | readErr => exact nodesFold_allNodes _ _ _
    | decodeErr => exact nodesFold_allNodes _ _ _
    | ok cs => exact nodesFold_allNodes _ _ _

theorem Collect_keys_gauges (e : Exporter)
    (nf : FetchResult NodeStatsResponse)
    (cf : FetchResult ClusterHealthResponse) :
    regKeys (e.Collect nf cf).1.gauges = regKeys e.gauges := by
  cases nf with
  | transportErr => exact regKeys_resetReg e.gauges
  | readErr => exact regKeys_resetReg e.gauges
  | decodeErr => exact regKeys_resetReg e.gauges
  | ok resp =>
    have hfold : regKeys ((resp.nodes.foldl (nodeStep resp.clusterName)
        { resetAll e with up := (1 : ℚ) }).gauges) = regKeys e.gauges :=
      (nodesFold_keys_gauges _ _ _).trans (regKeys_resetReg e.gauges)
    cases cf with
    | transportErr => exact hfold
    | readErr => exact hfold
    | decodeErr => exact hfold
    | ok cs =>
      show regKeys (setVal (setVal (setVal (setVal _
        "cluster_health_status" _ _) "cluster_health_timed_out" _ _)
        "cluster_number_of_nodes_total" _ _)
        "cluster_number_of_data_nodes_total" _ _) = _
      rw [regKeys_setVal, regKeys_setVal, regKeys_setVal, regKeys_setVal]
      exact hfold

theorem Collect_keys_gaugeVecs (e : Exporter)
    (nf : FetchResult NodeStatsResponse)
    (cf : FetchResult ClusterHealthResponse) :
    regKeys (e.Collect nf cf).1.gaugeVecs = regKeys e.gaugeVecs := by
  cases nf with
  | transportErr => exact regKeys_resetReg e.gaugeVecs
  | readErr => exact regKeys_resetReg e.gaugeVecs
  | decodeErr => exact regKeys_resetReg e.gaugeVecs
  | ok resp =>
    have hfold : regKeys ((resp.nodes.foldl (nodeStep resp.clusterName)
        { resetAll e with up := (1 : ℚ) }).gaugeVecs) =
        regKeys e.gaugeVecs :=
      (nodesFold_keys_gaugeVecs _ _ _).trans (regKeys_resetReg e.gaugeVecs)
    cases cf with
    | transportErr => exact hfold
    | readErr => exact hfold
    | decodeErr => exact hfold
    | ok cs => exact hfold

theorem Collect_keys_counters (e : Exporter)
    (nf : FetchResult NodeStatsResponse)
    (cf : FetchResult ClusterHealthResponse) :
    regKeys (e.Collect nf cf).1.counters = regKeys e.counters := by
  cases nf with
  | transportErr => exact regKeys_resetReg e.counters
  | readErr => exact regKeys_resetReg e.counters
  | decodeErr => exact regKeys_resetReg e.counters
  | ok resp =>
    have hfold : regKeys ((resp.nodes.foldl (nodeStep resp.clusterName)
        { resetAll e with up := (1 : ℚ) }).counters) =
        regKeys e.counters :=
      (nodesFold_keys_counters _ _ _).trans (regKeys_resetReg e.counters)
    cases cf with
    | transportErr => exact hfold
    | readErr => exact hfold
    | decodeErr => exact hfold
    | ok cs => exact hfold

theorem Collect_keys_counterVecs (e : Exporter)
    (nf : FetchResult NodeStatsResponse)
    (cf : FetchResult ClusterHealthResponse) :
    regKeys (e.Collect nf cf).1.counterVecs = regKeys e.counterVecs := by
  cases nf with
  | transportErr => exact regKeys_resetReg e.counterVecs
  | readErr => exact regKeys_resetReg e.counterVecs
  | decodeErr => exact regKeys_resetReg e.counterVecs
  | ok resp =>
    have hfold : regKeys ((resp.nodes.foldl (nodeStep resp.clusterName)
        { resetAll e with up := (1 : ℚ) }).counterVecs) =
        regKeys e.counterVecs :=
      (nodesFold_keys_counterVecs _ _ _).trans
        (regKeys_resetReg e.counterVecs)
    cases cf with
    | transportErr => exact hfold
    | readErr => exact hfold
    | decodeErr => exact hfold
    | ok cs => exact hfold

/-- C7: feeding the same fixed node-stats and cluster-health outcomes to
a second cycle on the registry left by the first produces the identical
exposition output. -/
theorem c7_idempotent_exposition (e : Exporter)
    (nf : FetchResult NodeStatsResponse)
    (cf : FetchResult ClusterHealthResponse) :
    ((e.Collect nf cf).1.Collect nf cf).2 = (e.Collect nf cf).2 :=
  congrArg Prod.snd
    (Collect_state_indep (e.Collect nf cf).1 e
      (Collect_allNodes e nf cf) (Collect_keys_gauges e nf cf)
      (Collect_keys_gaugeVecs e nf cf) (Collect_keys_counters e nf cf)
      (Collect_keys_counterVecs e nf cf) nf cf)

/-! ### C8: the four thread-pool gauge families march in lockstep -/

theorem mem_regKeys_setVal {n : String} {r : Registry} {m : String}
    {ls : List String} {v : ℚ} (h : n ∈ regKeys r) :
    n ∈ regKeys (setVal r m ls v) := by
  rw [regKeys_setVal]; exact h

/-- The three copy-written thread-pool gauge families always hold exactly
the series of `thread_pool_active_count`, and the gauge-vec catalog keys
are intact. -/
def tpLockstep (e : Exporter) : Prop :=
  lookupFam e.gaugeVecs "thread_pool_threads_count" =
    lookupFam e.gaugeVecs "thread_pool_active_count" ∧
  lookupFam e.gaugeVecs "thread_pool_largest_count" =
    lookupFam e.gaugeVecs "thread_pool_active_count" ∧
  lookupFam e.gaugeVecs "thread_pool_queue_count" =
    lookupFam e.gaugeVecs "thread_pool_active_count" ∧
  regKeys e.gaugeVecs = gaugeVecNames

theorem gcStep_tpLockstep (cn hst : String) (e : Exporter)
    (col : String × GCCollectorStats) (h : tpLockstep e) :
    tpLockstep (gcStep cn hst e col) := h

theorem breakerStep_tpLockstep (cn hst : String) (e : Exporter)
    (b : String × BreakerStats) (h : tpLockstep e) :
    tpLockstep (breakerStep cn hst e b) := by
  obtain ⟨h1, h2, h3, hk⟩ := h
  unfold tpLockstep
  simp only [breakerStep]
  refine ⟨?_, ?_, ?_, ?_⟩
  · conv_lhs => rw [lookupFam_setVal_ne (by decide),
      lookupFam_setVal_ne (by decide)]
    conv_rhs => rw [lookupFam_setVal_ne (by decide),
      lookupFam_setVal_ne (by decide)]
    exact h1
  · conv_lhs => rw [lookupFam_setVal_ne (by decide),
      lookupFam_setVal_ne (by decide)]
    conv_rhs => rw [lookupFam_setVal_ne (by decide),
      lookupFam_setVal_ne (by decide)]
    exact h2
  · conv_lhs => rw [lookupFam_setVal_ne (by decide),
      lookupFam_setVal_ne (by decide)]
    conv_rhs => rw [lookupFam_setVal_ne (by decide),
      lookupFam_setVal_ne (by decide)]
    exact h3
  · rw [regKeys_setVal, regKeys_setVal]
    exact hk

theorem threadPoolStep_tpLockstep (cn hst : String) (e : Exporter)
    (tp : String × ThreadPoolStats) (h : tpLockstep e) :
    tpLockstep (threadPoolStep cn hst e tp) := by
  obtain ⟨h1, h2, h3, hk⟩ := h
  have hA : "thread_pool_active_count" ∈ regKeys e.gaugeVecs := by
    rw [hk]; decide
  have hT : "thread_pool_threads_count" ∈ regKeys e.gaugeVecs := by
    rw [hk]; decide
  have hL : "thread_pool_largest_count" ∈ regKeys e.gaugeVecs := by
    rw [hk]; decide
  have hQ : "thread_pool_queue_count" ∈ regKeys e.gaugeVecs := by
    rw [hk]; decide
  unfold tpLockstep
  simp only [threadPoolStep]
  refine ⟨?_, ?_, ?_, ?_⟩
  · conv_lhs => rw [lookupFam_setVal_ne (by decide),
      lookupFam_setVal_ne (by decide),
      lookupFam_setVal_self (mem_regKeys_setVal hT),
      lookupFam_setVal_ne (by decide)]
    conv_rhs => rw [lookupFam_setVal_ne (by decide),
      lookupFam_setVal_ne (by decide), lookupFam_setVal_ne (by decide),
      lookupFam_setVal_self hA]
    rw [h1]
  · conv_lhs => rw [lookupFam_setVal_ne (by decide),
      lookupFam_setVal_self
        (mem_regKeys_setVal (mem_regKeys_setVal hL)),
      lookupFam_setVal_ne (by decide), lookupFam_setVal_ne (by decide)]
    conv_rhs => rw [lookupFam_setVal_ne (by decide),
      lookupFam_setVal_ne (by decide), lookupFam_setVal_ne (by decide),
      lookupFam_setVal_self hA]
    rw [h2]
  · conv_lhs => rw [lookupFam_setVal_self
        (mem_regKeys_setVal (mem_regKeys_setVal (mem_regKeys_setVal hQ))),
      lookupFam_setVal_ne (by decide), lookupFam_setVal_ne (by decide),
      lookupFam_setVal_ne (by decide)]
    conv_rhs => rw [lookupFam_setVal_ne (by decide),
      lookupFam_setVal_ne (by decide), lookupFam_setVal_ne (by decide),
      lookupFam_setVal_self hA]
    rw [h3]
  · rw [regKeys_setVal, regKeys_setVal, regKeys_setVal, regKeys_setVal]
    exact hk

theorem populateNode_tpLockstep (cn : String) (e : Exporter)
    (s : NodeStats) (h : tpLockstep e) :
    tpLockstep (populateNode cn e s) := by
  have h3 : tpLockstep (s.threadPool.foldl (threadPoolStep cn s.host)
      (s.breakers.foldl (breakerStep cn s.host)
        (s.jvm.gcCollectors.foldl (gcStep cn s.host) e))) := by
    refine foldl_preserves
      (fun b a hb => threadPoolStep_tpLockstep cn s.host b a hb) _ _ ?_
    refine foldl_preserves
      (fun b a hb => breakerStep_tpLockstep cn s.host b a hb) _ _ ?_
    exact foldl_preserves
      (fun b a hb => gcStep_tpLockstep cn s.host b a hb) _ _ h
  obtain ⟨h1, h2, h3', hk⟩ := h3
  unfold tpLockstep
  simp only [populateNode]
  refine ⟨?_, ?_, ?_, ?_⟩
  · conv_lhs => rw [lookupFam_setVal_ne (by decide),
      lookupFam_setVal_ne (by decide), lookupFam_setVal_ne (by decide),
      lookupFam_setVal_ne (by decide), lookupFam_setVal_ne (by decide)]
    conv_rhs => rw [lookupFam_setVal_ne (by decide),
      lookupFam_setVal_ne (by decide), lookupFam_setVal_ne (by decide),
      lookupFam_setVal_ne (by decide), lookupFam_setVal_ne (by decide)]
    exact h1
  · conv_lhs => rw [lookupFam_setVal_ne (by decide),
      lookupFam_setVal_ne (by decide), lookupFam_setVal_ne (by decide),
      lookupFam_setVal_ne (by decide), lookupFam_setVal_ne (by decide)]
    conv_rhs => rw [lookupFam_setVal_ne (by decide),
      lookupFam_setVal_ne (by decide), lookupFam_setVal_ne (by decide),
      lookupFam_setVal_ne (by decide), lookupFam_setVal_ne (by decide)]
    exact h2
  · conv_lhs => rw [lookupFam_setVal_ne (by decide),
      lookupFam_setVal_ne (by decide), lookupFam_setVal_ne (by decide),
      lookupFam_setVal_ne (by decide), lookupFam_setVal_ne (by decide)]
    conv_rhs => rw [lookupFam_setVal_ne (by decide),
      lookupFam_setVal_ne (by decide), lookupFam_setVal_ne (by decide),
      lookupFam_setVal_ne (by decide), lookupFam_setVal_ne (by decide)]
    exact h3'
  · rw [regKeys_setVal, regKeys_setVal, regKeys_setVal, regKeys_setVal,
      regKeys_setVal]
    exact hk

theorem nodesFold_tpLockstep (cn : String)
    (l : List (String × NodeStats)) (e : Exporter) (h : tpLockstep e) :
    tpLockstep (l.foldl (nodeStep cn) e) :=
  foldl_preserves (fun b a hb => populateNode_tpLockstep cn b a.2 hb) l e h

theorem Collect_tpLockstep (e : Exporter)
    (nf : FetchResult NodeStatsResponse)
    (cf : FetchResult ClusterHealthResponse)
    (hwf : wellFormed e) : tpLockstep (e.Collect nf cf).1 := by
  obtain ⟨-, hgv, -, -⟩ := hwf
  have hreset : tpLockstep (resetAll e) :=
    ⟨(lookupFam_resetReg _ _).trans (lookupFam_resetReg _ _).symm,
     (lookupFam_resetReg _ _).trans (lookupFam_resetReg _ _).symm,
     (lookupFam_resetReg _ _).trans (lookupFam_resetReg _ _).symm,
     (regKeys_resetReg _).trans hgv⟩
  cases nf with
  | transportErr => exact hreset
  | readErr => exact hreset
  | decodeErr => exact hreset
  | ok resp =>
    have hfold : tpLockstep (resp.nodes.foldl (nodeStep resp.clusterName)
        { resetAll e with up := (1 : ℚ) }) :=
      nodesFold_tpLockstep _ _ _ hreset
    cases cf with
    | transportErr => exact hfold
    | readErr => exact hfold
    | decodeErr => exact hfold
    | ok cs => exact hfold

/-- A node snapshot with a single thread pool named "search". -/
def poolNode (p : ThreadPoolStats) : NodeStats :=
  { zeroNode with threadPool := [("search", p)] }

/-- A node-stats document holding only `poolNode p`. -/
def poolResp (p : ThreadPoolStats) : NodeStatsResponse :=
  { clusterName := "c", nodes := [("id1", poolNode p)] }

/-- C8: every cycle writes the four thread-pool gauge families
`active`, `threads`, `largest` and `queue` in lockstep — the latter three
always hold exactly the series of `thread_pool_active_count` — and on a
single-node, single-pool document each of the four ends up holding the
pool's active count, whatever its `threads`, `largest` and `queue`
statistics are. -/
theorem c8_thread_pool_all_active (e : Exporter)
    (nf : FetchResult NodeStatsResponse)
    (cf : FetchResult ClusterHealthResponse) (hwf : wellFormed e)
    (p : ThreadPoolStats) :
    (lookupFam (e.Collect nf cf).1.gaugeVecs "thread_pool_threads_count" =
      lookupFam (e.Collect nf cf).1.gaugeVecs "thread_pool_active_count" ∧
     lookupFam (e.Collect nf cf).1.gaugeVecs "thread_pool_largest_count" =
      lookupFam (e.Collect nf cf).1.gaugeVecs "thread_pool_active_count" ∧
     lookupFam (e.Collect nf cf).1.gaugeVecs "thread_pool_queue_count" =
      lookupFam (e.Collect nf cf).1.gaugeVecs "thread_pool_active_count") ∧
    (lookupFam ((NewExporter true).Collect (.ok (poolResp p))
        .transportErr).1.gaugeVecs "thread_pool_active_count" =
      [([("c" : String), "n1", "search"], (p.active : ℚ))] ∧
     lookupFam ((NewExporter true).Collect (.ok (poolResp p))
        .transportErr).1.gaugeVecs "thread_pool_threads_count" =
      [([("c" : String), "n1", "search"], (p.active : ℚ))] ∧
     lookupFam ((NewExporter true).Collect (.ok (poolResp p))
        .transportErr).1.gaugeVecs "thread_pool_largest_count" =
      [([("c" : String), "n1", "search"], (p.active : ℚ))] ∧
     lookupFam ((NewExporter true).Collect (.ok (poolResp p))
        .transportErr).1.gaugeVecs "thread_pool_queue_count" =
      [([("c" : String), "n1", "search"], (p.active : ℚ))]) := by
  constructor
  · obtain ⟨h1, h2, h3, -⟩ := Collect_tpLockstep e nf cf hwf
    exact ⟨h1, h2, h3⟩
  · exact ⟨rfl, rfl, rfl, rfl⟩

/-- C8 witness: the lockstep property at a fresh exporter and a concrete
pool document with distinct threads, largest and queue statistics. -/
theorem c8_thread_pool_all_active_witness :
    wellFormed (NewExporter true) ∧
    lookupFam ((NewExporter true).Collect
        (.ok (poolResp ⟨9, 8, 4, 17, 23, 42⟩))
        .transportErr).1.gaugeVecs "thread_pool_threads_count" =
      lookupFam ((NewExporter true).Collect
        (.ok (poolResp ⟨9, 8, 4, 17, 23, 42⟩))
        .transportErr).1.gaugeVecs "thread_pool_active_count" :=
  ⟨NewExporter_wellFormed true,
    ((c8_thread_pool_all_active (NewExporter true)
      (.ok (poolResp ⟨9, 8, 4, 17, 23, 42⟩)) .transportErr
      (NewExporter_wellFormed true) ⟨9, 8, 4, 17, 23, 42⟩).1).1⟩

/-! ### C9: request-cache series are populated from the query cache -/

/-- The request-cache families always hold exactly the series of the
corresponding query-cache families, and the scalar catalogs' keys are
intact. -/
def cacheAlias (e : Exporter) : Prop :=
  lookupFam e.gauges "indices_request_cache_memory_size_bytes" =
    lookupFam e.gauges "indices_query_cache_memory_size_bytes" ∧
  lookupFam e.counters "indices_request_cache_evictions" =
    lookupFam e.counters "indices_query_cache_evictions" ∧
  regKeys e.gauges = gaugeMetricNames ∧
  regKeys e.counters = counterMetricNames

theorem populateNode_cacheAlias (cn : String) (e : Exporter)
    (s : NodeStats) (h : cacheAlias e) : cacheAlias (populateNode cn e s) := by
  obtain ⟨h1, h2, hkg, hkc⟩ := h
  have he3g : (s.threadPool.foldl (threadPoolStep cn s.host)
      (s.breakers.foldl (breakerStep cn s.host)
        (s.jvm.gcCollectors.foldl (gcStep cn s.host) e))).gauges =
      e.gauges := by
    rw [foldl_proj Exporter.gauges (threadPoolStep cn s.host)
        (fun _ _ => rfl),
      foldl_proj Exporter.gauges (breakerStep cn s.host) (fun _ _ => rfl),
      foldl_proj Exporter.gauges (gcStep cn s.host) (fun _ _ => rfl)]
  have he3c : (s.threadPool.foldl (threadPoolStep cn s.host)
      (s.breakers.foldl (breakerStep cn s.host)
        (s.jvm.gcCollectors.foldl (gcStep cn s.host) e))).counters =
      e.counters := by
    rw [foldl_proj Exporter.counters (threadPoolStep cn s.host)
        (fun _ _ => rfl),
      foldl_proj Exporter.counters (breakerStep cn s.host)
        (fun _ _ => rfl),
      foldl_proj Exporter.counters (gcStep cn s.host) (fun _ _ => rfl)]
  have hreqg : "indices_request_cache_memory_size_bytes" ∈
      regKeys e.gauges := by rw [hkg]; decide
  have hqryg : "indices_query_cache_memory_size_bytes" ∈
      regKeys e.gauges := by rw [hkg]; decide
  have hreqc : "indices_request_cache_evictions" ∈
      regKeys e.counters := by rw [hkc]; decide
  have hqryc : "indices_query_cache_evictions" ∈
      regKeys e.counters := by rw [hkc]; decide
  unfold cacheAlias
  simp only [populateNode]
  refine ⟨?_, ?_, ?_, ?_⟩
  · conv_lhs => rw [lookupFam_setVal_ne (by decide),
      lookupFam_setVal_ne (by decide), lookupFam_setVal_ne (by decide),
      lookupFam_setVal_ne (by decide), lookupFam_setVal_ne (by decide),
      lookupFam_setVal_ne (by decide), lookupFam_setVal_ne (by decide),
      lookupFam_setVal_ne (by decide), lookupFam_setVal_ne (by decide),
      lookupFam_setVal_ne (by decide),
      lookupFam_setVal_self (mem_regKeys_setVal (mem_regKeys_setVal
        (mem_regKeys_setVal (he3g.symm ▸ hreqg)))),
      lookupFam_setVal_ne (by decide), lookupFam_setVal_ne (by decide),
      lookupFam_setVal_ne (by decide), he3g]
    conv_rhs => rw [lookupFam_setVal_ne (by decide),
      lookupFam_setVal_ne (by decide), lookupFam_setVal_ne (by decide),
      lookupFam_setVal_ne (by decide), lookupFam_setVal_ne (by decide),
      lookupFam_setVal_ne (by decide), lookupFam_setVal_ne (by decide),
      lookupFam_setVal_ne (by decide), lookupFam_setVal_ne (by decide),
      lookupFam_setVal_ne (by decide), lookupFam_setVal_ne (by decide),
      lookupFam_setVal_self (mem_regKeys_setVal
        (mem_regKeys_setVal (he3g.symm ▸ hqryg))),
      lookupFam_setVal_ne (by decide), lookupFam_setVal_ne (by decide),
      he3g]
    rw [h1]
  · conv_lhs => rw [lookupFam_setVal_ne (by decide),
      lookupFam_setVal_ne (by decide), lookupFam_setVal_ne (by decide),
      lookupFam_setVal_ne (by decide), lookupFam_setVal_ne (by decide),
      lookupFam_setVal_ne (by decide), lookupFam_setVal_ne (by decide),
      lookupFam_setVal_ne (by decide), lookupFam_setVal_ne (by decide),
      lookupFam_setVal_ne (by decide), lookupFam_setVal_ne (by decide),
      lookupFam_setVal_ne (by decide), lookupFam_setVal_ne (by decide),
      lookupFam_setVal_ne (by decide),
      lookupFam_setVal_self (mem_regKeys_setVal (mem_regKeys_setVal
        (mem_regKeys_setVal (he3c.symm ▸ hreqc)))),
      lookupFam_setVal_ne (by decide), lookupFam_setVal_ne (by decide),
      lookupFam_setVal_ne (by decide), he3c]
    conv_rhs => rw [lookupFam_setVal_ne (by decide),
      lookupFam_setVal_ne (by decide), lookupFam_setVal_ne (by decide),
      lookupFam_setVal_ne (by decide), lookupFam_setVal_ne (by decide),
      lookupFam_setVal_ne (by decide), lookupFam_setVal_ne (by decide),
      lookupFam_setVal_ne (by decide), lookupFam_setVal_ne (by decide),
      lookupFam_setVal_ne (by decide), lookupFam_setVal_ne (by decide),
      lookupFam_setVal_ne (by decide), lookupFam_setVal_ne (by decide),
      lookupFam_setVal_ne (by decide), lookupFam_setVal_ne (by decide),
      lookupFam_setVal_self (mem_regKeys_setVal
        (mem_regKeys_setVal (he3c.symm ▸ hqryc))),
      lookupFam_setVal_ne (by decide), lookupFam_setVal_ne (by decide),
      he3c]
    rw [h2]
  · simp only [regKeys_setVal]
    rw [he3g]
    exact hkg
  · simp only [regKeys_setVal]
    rw [he3c]
    exact hkc

theorem nodesFold_cacheAlias (cn : String)
    (l : List (String × NodeStats)) (e : Exporter) (h : cacheAlias e) :
    cacheAlias (l.foldl (nodeStep cn) e) := by
  refine foldl_preserves ?_ l e h
  intro b a hb
  exact populateNode_cacheAlias cn b a.2 hb

theorem Collect_cacheAlias (e : Exporter)
    (nf : FetchResult NodeStatsResponse)
    (cf : FetchResult ClusterHealthResponse)
    (hwf : wellFormed e) : cacheAlias (e.Collect nf cf).1 := by
  obtain ⟨hg, -, hc, -⟩ := hwf
  have hreset : cacheAlias (resetAll e) :=
    ⟨(lookupFam_resetReg _ _).trans (lookupFam_resetReg _ _).symm,
     (lookupFam_resetReg _ _).trans (lookupFam_resetReg _ _).symm,
     (regKeys_resetReg _).trans hg,
     (regKeys_resetReg _).trans hc⟩
  cases nf with
  | transportErr => exact hreset
  | readErr => exact hreset
  | decodeErr => exact hreset
  | ok resp =>
    have hfold : cacheAlias (resp.nodes.foldl (nodeStep resp.clusterName)
        { resetAll e with up := (1 : ℚ) }) :=
      nodesFold_cacheAlias _ _ _ hreset
    obtain ⟨f1, f2, fkg, fkc⟩ := hfold
    cases cf with
    | transportErr => exact ⟨f1, f2, fkg, fkc⟩
    | readErr => exact ⟨f1, f2, fkg, fkc⟩
    | decodeErr => exact ⟨f1, f2, fkg, fkc⟩
    | ok cs =>
      refine ⟨?_, f2, ?_, fkc⟩
      · show lookupFam (setVal (setVal (setVal (setVal _
          "cluster_health_status" _ _) "cluster_health_timed_out" _ _)
          "cluster_number_of_nodes_total" _ _)
          "cluster_number_of_data_nodes_total" _ _)
          "indices_request_cache_memory_size_bytes" =
          lookupFam (setVal (setVal (setVal (setVal _
          "cluster_health_status" _ _) "cluster_health_timed_out" _ _)
          "cluster_number_of_nodes_total" _ _)
          "cluster_number_of_data_nodes_total" _ _)
          "indices_query_cache_memory_size_bytes"
        rw [lookupFam_setVal_ne (by decide),
          lookupFam_setVal_ne (by decide),
          lookupFam_setVal_ne (by decide),
          lookupFam_setVal_ne (by decide),
          lookupFam_setVal_ne (by decide),
          lookupFam_setVal_ne (by decide),
          lookupFam_setVal_ne (by decide),
          lookupFam_setVal_ne (by decide)]
        exact f1
      · show regKeys (setVal (setVal (setVal (setVal _
          "cluster_health_status" _ _) "cluster_health_timed_out" _ _)
          "cluster_number_of_nodes_total" _ _)
          "cluster_number_of_data_nodes_total" _ _) = _
        rw [regKeys_setVal, regKeys_setVal, regKeys_setVal, regKeys_setVal]
        exact fkg

/-- A node snapshot with given query-cache and request-cache sections. -/
def cacheNode (q rc : CacheStats) : NodeStats :=
  { zeroNode with
    indices := { zeroNode.indices with queryCache := q, requestCache := rc } }

/-- A node-stats document holding only `cacheNode q rc`. -/
def cacheResp (q rc : CacheStats) : NodeStatsResponse :=
  { clusterName := "c", nodes := [("id1", cacheNode q rc)] }

/-- The per-node populate phase upserts the request-cache memory family
with the snapshot's query-cache memory size. -/
theorem populateNode_request_mem (cn : String) (e : Exporter)
    (s : NodeStats) (hk : regKeys e.gauges = gaugeMetricNames) :
    lookupFam (populateNode cn e s).gauges
        "indices_request_cache_memory_size_bytes" =
      setSeries (lookupFam e.gauges
          "indices_request_cache_memory_size_bytes")
        [cn, s.host] (s.indices.queryCache.memorySize : ℚ) := by
  have he3g : (s.threadPool.foldl (threadPoolStep cn s.host)
      (s.breakers.foldl (breakerStep cn s.host)
        (s.jvm.gcCollectors.foldl (gcStep cn s.host) e))).gauges =
      e.gauges := by
    rw [foldl_proj Exporter.gauges (threadPoolStep cn s.host)
        (fun _ _ => rfl),
      foldl_proj Exporter.gauges (breakerStep cn s.host) (fun _ _ => rfl),
      foldl_proj Exporter.gauges (gcStep cn s.host) (fun _ _ => rfl)]
  have hreqg : "indices_request_cache_memory_size_bytes" ∈
      regKeys e.gauges := by rw [hk]; decide
  simp only [populateNode]
  conv_lhs => rw [lookupFam_setVal_ne (by decide),
    lookupFam_setVal_ne (by decide), lookupFam_setVal_ne (by decide),
    lookupFam_setVal_ne (by decide), lookupFam_setVal_ne (by decide),
    lookupFam_setVal_ne (by decide), lookupFam_setVal_ne (by decide),
    lookupFam_setVal_ne (by decide), lookupFam_setVal_ne (by decide),
    lookupFam_setVal_ne (by decide),
    lookupFam_setVal_self (mem_regKeys_setVal (mem_regKeys_setVal
      (mem_regKeys_setVal (he3g.symm ▸ hreqg)))),
    lookupFam_setVal_ne (by decide), lookupFam_setVal_ne (by decide),
    lookupFam_setVal_ne (by decide), he3g]

/-- The per-node populate phase upserts the request-cache eviction family
with the snapshot's query-cache eviction count. -/
theorem populateNode_request_ev (cn : String) (e : Exporter)
    (s : NodeStats) (hk : regKeys e.counters = counterMetricNames) :
    lookupFam (populateNode cn e s).counters
        "indices_request_cache_evictions" =
      setSeries (lookupFam e.counters "indices_request_cache_evictions")
        [cn, s.host] (s.indices.queryCache.evictions : ℚ) := by
  have he3c : (s.threadPool.foldl (threadPoolStep cn s.host)
      (s.breakers.foldl (breakerStep cn s.host)
        (s.jvm.gcCollectors.foldl (gcStep cn s.host) e))).counters =
      e.counters := by
    rw [foldl_proj Exporter.counters (threadPoolStep cn s.host)
        (fun _ _ => rfl),
      foldl_proj Exporter.counters (breakerStep cn s.host)
        (fun _ _ => rfl),
      foldl_proj Exporter.counters (gcStep cn s.host) (fun _ _ => rfl)]
  have hreqc : "indices_request_cache_evictions" ∈
      regKeys e.counters := by rw [hk]; decide
  simp only [populateNode]
  conv_lhs => rw [lookupFam_setVal_ne (by decide),
    lookupFam_setVal_ne (by decide), lookupFam_setVal_ne (by decide),
    lookupFam_setVal_ne (by decide), lookupFam_setVal_ne (by decide),
    lookupFam_setVal_ne (by decide), lookupFam_setVal_ne (by decide),
    lookupFam_setVal_ne (by decide), lookupFam_setVal_ne (by decide),
    lookupFam_setVal_ne (by decide), lookupFam_setVal_ne (by decide),
    lookupFam_setVal_ne (by decide), lookupFam_setVal_ne (by decide),
    lookupFam_setVal_ne (by decide),
    lookupFam_setVal_self (mem_regKeys_setVal (mem_regKeys_setVal
      (mem_regKeys_setVal (he3c.symm ▸ hreqc)))),
    lookupFam_setVal_ne (by decide), lookupFam_setVal_ne (by decide),
    lookupFam_setVal_ne (by decide), he3c]

set_option maxHeartbeats 1000000 in
/-- C9: the exposed request-cache memory and eviction series always
equal the query-cache ones for the same labels — both pairs are written
from the snapshot's query-cache section — and on a single-node document
the request-cache series hold the query-cache numbers whatever the
snapshot's request-cache section contains. -/
theorem c9_request_cache_is_query_cache (e : Exporter)
    (nf : FetchResult NodeStatsResponse)
    (cf : FetchResult ClusterHealthResponse) (hwf : wellFormed e)
    (q rc : CacheStats) :
    (lookupFam (e.Collect nf cf).2.gauges
        "indices_request_cache_memory_size_bytes" =
      lookupFam (e.Collect nf cf).2.gauges
        "indices_query_cache_memory_size_bytes" ∧
     lookupFam (e.Collect nf cf).2.counters
        "indices_request_cache_evictions" =
      lookupFam (e.Collect nf cf).2.counters
        "indices_query_cache_evictions") ∧
    (lookupFam ((NewExporter true).Collect (.ok (cacheResp q rc))
        .transportErr).1.gauges
        "indices_request_cache_memory_size_bytes" =
      [([("c" : String), "n1"], (q.memorySize : ℚ))] ∧
     lookupFam ((NewExporter true).Collect (.ok (cacheResp q rc))
        .transportErr).1.counters
        "indices_request_cache_evictions" =
      [([("c" : String), "n1"], (q.evictions : ℚ))]) := by
  constructor
  · have hca := Collect_cacheAlias e nf cf hwf
    cases nf with
    | transportErr => exact ⟨rfl, rfl⟩
    | readErr => exact ⟨rfl, rfl⟩
    | decodeErr => exact ⟨rfl, rfl⟩
    | ok resp =>
      cases cf with
      | transportErr => exact ⟨rfl, rfl⟩
      | readErr => exact ⟨rfl, rfl⟩
      | decodeErr => exact ⟨rfl, rfl⟩
      | ok cs => exact ⟨hca.1, hca.2.1⟩
  · have hred : ((NewExporter true).Collect (.ok (cacheResp q rc))
        .transportErr).1 =
        populateNode "c" { resetAll (NewExporter true) with up := (1 : ℚ) }
          (cacheNode q rc) := rfl
    have hk0 : regKeys ({ resetAll (NewExporter true) with
        up := (1 : ℚ) }).gauges = gaugeMetricNames := rfl
    have hk1 : regKeys ({ resetAll (NewExporter true) with
        up := (1 : ℚ) }).counters = counterMetricNames := rfl
    constructor
    · rw [hred, populateNode_request_mem "c" _ _ hk0]
      rfl
    · rw [hred, populateNode_request_ev "c" _ _ hk1]
      rfl

/-- C9 witness: concrete query-cache and request-cache sections with
different numbers. -/
theorem c9_request_cache_is_query_cache_witness :
    wellFormed (NewExporter true) ∧
    lookupFam ((NewExporter true).Collect (.ok (cacheResp ⟨77, 5⟩ ⟨123, 9⟩))
        .transportErr).1.gauges
        "indices_request_cache_memory_size_bytes" =
      [([("c" : String), "n1"], (77 : ℚ))] :=
  ⟨NewExporter_wellFormed true,
    ((c9_request_cache_is_query_cache (NewExporter true)
      (.ok (cacheResp ⟨77, 5⟩ ⟨123, 9⟩)) .transportErr
      (NewExporter_wellFormed true) ⟨77, 5⟩ ⟨123, 9⟩).2).1⟩

/-! ### C1: millisecond-to-second conversion truncates -/

/-- A node snapshot whose "young" GC collector reports 7 runs and a
cumulative collection time of 2500 ms. -/
def gcNode : NodeStats :=
  { zeroNode with
    jvm := { gcCollectors := [("young", ⟨7, 2500⟩)], mem := ⟨0, 0, 0, 0, 0⟩ } }

/-- A node-stats document holding only `gcNode`. -/
def gcResp : NodeStatsResponse :=
  { clusterName := "c", nodes := [("id1", gcNode)] }

/-- C1: the source divides the integer millisecond field by 1000 before
converting to float (`float64(gcstats.CollectionTime / 1000)`), so a GC
collection time of 2500 ms is exposed as 2, not as the exact 2.5 the
specification states: the conversion truncates every sub-second part. -/
theorem c1_gc_seconds_truncated :
    lookupFam ((NewExporter true).Collect (.ok gcResp)
        (.ok greenHealth)).2.counterVecs "jvm_gc_collection_seconds_sum" =
      [([("c" : String), "n1", "young"], (2 : ℚ))] ∧
    (2 : ℚ) ≠ 5 / 2 ∧ goDiv 2500 1000 = 2 :=
  ⟨rfl, by norm_num, rfl⟩
